import Mathlib

/-!
Verification of the nanobot agent-orchestration core.

This file shallowly embeds the parts of the source that the verified
properties are about:

* `src/nanobot/agent/loop.py` — `AgentLoop._process_message`,
  `AgentLoop._process_system_message`, `AgentLoop.process_direct`,
  `AgentLoop._init_mcp_clients`;
* `src/nanobot/mcp/client.py` — `MCPClient`, `MCPClientManager`;
* `src/nanobot/mcp/tools/adapter.py` — `MCPToolAdapter`.

External collaborators that are not part of the repository snapshot
(the bus event types, the context builder, the provider base class and
the session manager) are modelled from the specification's contracts;
each such definition carries a doc comment saying so.
-/

namespace Nanobot

/-- A tool-invocation request carried by a provider response
(`ToolCall` in the provider layer): id, tool name and an argument
mapping.  The argument mapping is modelled as its JSON rendering, an
opaque string. -/
structure ToolCall where
  id : String
  name : String
  arguments : String
deriving Repr, DecidableEq

/-- Modelled from the spec: the provider contract
`chat(messages, toolDefinitions, model) → (content, invocationRequests)`
where an empty `invocationRequests` marks completion. -/
structure ProviderResponse where
  content : String
  tool_calls : List ToolCall
deriving Repr, DecidableEq

/-- Modelled from the spec: a response "carries" tool-invocation
requests exactly when its request list is nonempty. -/
def ProviderResponse.has_tool_calls (r : ProviderResponse) : Bool :=
  !r.tool_calls.isEmpty

/-- A message in the sequence sent to the provider: a user turn, an
assistant turn carrying tool-invocation requests, or a tool-result
turn tied to one invocation id. -/
inductive ChatMessage where
  | user (content : String)
  | assistant (content : String) (tool_calls : List ToolCall)
  | tool (tool_call_id : String) (name : String) (result : String)
deriving Repr, DecidableEq

/-- Modelled from the spec: the context-builder contract
`appendAssistantTurn(seq, content, invocationRequests) → seq`
(the source calls `self.context.add_assistant_message`). -/
def add_assistant_message (msgs : List ChatMessage) (content : String)
    (tcs : List ToolCall) : List ChatMessage :=
  msgs ++ [ChatMessage.assistant content tcs]

/-- Modelled from the spec: the context-builder contract
`appendToolResult(seq, invocationId, toolName, resultText) → seq`
(the source calls `self.context.add_tool_result`). -/
def add_tool_result (msgs : List ChatMessage) (tool_call_id : String)
    (name : String) (result : String) : List ChatMessage :=
  msgs ++ [ChatMessage.tool tool_call_id name result]

/-- Modelled from the spec: the Inbound Envelope
(`nanobot.bus.events.InboundMessage`): origin channel, sender id,
conversation key (`chat_id`) and content. -/
structure InboundMessage where
  channel : String
  sender_id : String
  chat_id : String
  content : String
deriving Repr, DecidableEq

/-- Modelled from the spec: the composite per-conversation session key
`<channel>:<chat_id>` (the spec's routing rule and the source's
`f"{origin_channel}:{origin_chat_id}"` use this format). -/
def InboundMessage.session_key (m : InboundMessage) : String :=
  m.channel ++ ":" ++ m.chat_id

/-- The Outbound Envelope (`nanobot.bus.events.OutboundMessage`):
destination channel, destination key and content. -/
structure OutboundMessage where
  channel : String
  chat_id : String
  content : String
deriving Repr, DecidableEq

/-- One Conversation Turn in a session history: role and content. -/
abbrev Turn := String × String

/-- A session's ordered history of turns. -/
abbrev SessionHistory := List Turn

/-- Modelled from the spec: `Session.add_message(role, content)`
appends one turn to the session's ordered history. -/
def add_message (s : SessionHistory) (role content : String) : SessionHistory :=
  s ++ [(role, content)]

/-- Modelled from the spec: the session store,
`getOrCreate(key) → Session`; a total map from key to history (a
missing key reads as the empty history). -/
abbrev SessionStore := String → SessionHistory

/-- Modelled from the spec: `getOrCreate` reads the history at a key. -/
def get_or_create (store : SessionStore) (key : String) : SessionHistory :=
  store key

/-- Modelled from the spec: `save(Session)` writes one session's
history back to the store under its key. -/
def saveSession (store : SessionStore) (key : String)
    (s : SessionHistory) : SessionStore :=
  fun k => if k = key then s else store k

/-- The tool-execution body of one iteration of
`AgentLoop._process_message` (loop.py lines 331-337): for each
tool-invocation request, in the order the provider returned them,
execute it through the registry and append its result (tagged with the
request's id) to the message sequence before the next request runs.
`execTool` is the registry's `execute(name, args) → text`. -/
def execToolCalls (execTool : String → String → String) :
    List ChatMessage → List ToolCall → List ChatMessage
  | msgs, [] => msgs
  | msgs, tc :: rest =>
      execToolCalls execTool
        (add_tool_result msgs tc.id tc.name (execTool tc.name tc.arguments))
        rest

/-- The bounded call/execute cycle of `AgentLoop._process_message`
(loop.py lines 299-341; `_process_system_message` lines 396-433 repeat
the same cycle).  `provider i` is the outcome of the (i+1)-th call to
`provider.chat` — `Except.error` models a raised provider fault.
Returns the loop's outcome (`none` as final content when the budget is
exhausted) together with the number of provider calls made. -/
def runLoop (provider : Nat → Except String ProviderResponse)
    (execTool : String → String → String)
    (msgs : List ChatMessage) (iteration maxIterations : Nat) :
    Except String (Option String × List ChatMessage) × Nat :=
  if h : iteration < maxIterations then
    match provider iteration with
    | .error e => (.error e, 1)
    | .ok response =>
      if response.has_tool_calls then
        let msgs2 := execToolCalls execTool
          (add_assistant_message msgs response.content response.tool_calls)
          response.tool_calls
        let r := runLoop provider execTool msgs2 (iteration + 1) maxIterations
        (r.1, r.2 + 1)
      else
        (.ok (some response.content, msgs), 1)
  else
    (.ok (none, msgs), 0)
termination_by maxIterations - iteration
decreasing_by simp_wf; omega

/-- The fixed fallback text of `_process_message` (loop.py line 344). -/
def fallbackText : String :=
  "I've completed processing but have no response to give."

/-- The fixed fallback text of `_process_system_message`
(loop.py line 436). -/
def systemFallbackText : String := "Background task completed."

/-- The non-system body of `AgentLoop._process_message`
(loop.py lines 274-355), acting on the already-resolved session:
build the initial message sequence, run the bounded cycle, substitute
the fallback text when the budget was exhausted, append the user and
final assistant turns, and produce the Outbound Envelope.  A provider
fault propagates and leaves the session untouched.  `build` is the
context builder's `buildMessages(history, newContent)`. -/
def process_message (provider : Nat → Except String ProviderResponse)
    (execTool : String → String → String)
    (build : SessionHistory → String → List ChatMessage)
    (maxIterations : Nat)
    (session : SessionHistory) (msg : InboundMessage) :
    Except String OutboundMessage × SessionHistory :=
  let messages := build session msg.content
  match (runLoop provider execTool messages 0 maxIterations).1 with
  | .error e => (.error e, session)
  | .ok (finalOpt, _) =>
    let final_content := finalOpt.getD fallbackText
    let session2 :=
      add_message (add_message session "user" msg.content)
        "assistant" final_content
    (.ok ⟨msg.channel, msg.chat_id, final_content⟩, session2)

/-- Splits a character list at the first occurrence of `sep`:
`some (before, after)` when `sep` occurs, `none` otherwise.  This is
Python's `sep in s` test combined with `s.split(sep, 1)`. -/
def splitFirstAux (sep : Char) : List Char → Option (List Char × List Char)
  | [] => none
  | c :: cs =>
    if c = sep then some ([], cs)
    else
      match splitFirstAux sep cs with
      | none => none
      | some (l, r) => some (c :: l, r)

/-- The origin-parsing step of `_process_system_message`
(loop.py lines 367-374): a conversation key containing `":"` is split
on its first occurrence into `(origin_channel, origin_chat_id)`; a key
without the separator falls back to channel `"cli"` with the raw key
as the chat id. -/
def parse_origin (chat_id : String) : String × String :=
  match splitFirstAux ':' chat_id.data with
  | some (l, r) => (⟨l⟩, ⟨r⟩)
  | none => ("cli", chat_id)

/-- `AgentLoop._process_system_message` (loop.py lines 357-447): parse
the origin from the conversation key, resolve the origin session, run
the same bounded cycle, append the (system-tagged) user turn and the
final assistant turn, and address the Outbound Envelope to the parsed
origin channel and chat id. -/
def process_system_message (provider : Nat → Except String ProviderResponse)
    (execTool : String → String → String)
    (build : SessionHistory → String → List ChatMessage)
    (maxIterations : Nat)
    (store : SessionStore) (msg : InboundMessage) :
    Except String OutboundMessage × SessionStore :=
  let origin := parse_origin msg.chat_id
  let session_key := origin.1 ++ ":" ++ origin.2
  let session := get_or_create store session_key
  let messages := build session msg.content
  match (runLoop provider execTool messages 0 maxIterations).1 with
  | .error e => (.error e, store)
  | .ok (finalOpt, _) =>
    let final_content := finalOpt.getD systemFallbackText
    let session2 :=
      add_message
        (add_message session "user"
          ("[System: " ++ msg.sender_id ++ "] " ++ msg.content))
        "assistant" final_content
    (.ok ⟨origin.1, origin.2, final_content⟩,
     saveSession store session_key session2)

/-- `AgentLoop._process_message` at the store level (loop.py lines
259-355): a system-channel message is routed to
`_process_system_message`; otherwise the session is resolved by the
message's session key, processed, and saved only on success. -/
def process_message_full (provider : Nat → Except String ProviderResponse)
    (execTool : String → String → String)
    (build : SessionHistory → String → List ChatMessage)
    (maxIterations : Nat)
    (store : SessionStore) (msg : InboundMessage) :
    Except String OutboundMessage × SessionStore :=
  if msg.channel = "system" then
    process_system_message provider execTool build maxIterations store msg
  else
    let session := get_or_create store msg.session_key
    let r := process_message provider execTool build maxIterations session msg
    match r.1 with
    | .error e => (.error e, store)
    | .ok out => (.ok out, saveSession store msg.session_key r.2)

/-- The inbound message constructed by `AgentLoop.process_direct`
(loop.py lines 467-472): channel `"cli"`, sender `"user"`, chat id
`"direct"`, with the given content. -/
def directMsg (content : String) : InboundMessage :=
  ⟨"cli", "user", "direct", content⟩

/-- `AgentLoop.process_direct` (loop.py lines 449-484): build the
fixed cli/direct inbound message from the content and process it; the
`session_key` parameter is accepted (its source default is
`"cli:direct"`) but never read. -/
def process_direct (provider : Nat → Except String ProviderResponse)
    (execTool : String → String → String)
    (build : SessionHistory → String → List ChatMessage)
    (maxIterations : Nat)
    (store : SessionStore) (content : String) (session_key : String) :
    Except String String × SessionStore :=
  let r := process_message_full provider execTool build maxIterations store
    (directMsg content)
  match r.1 with
  | .error e => (.error e, r.2)
  | .ok out => (.ok out.content, r.2)

/-- One MCP client configuration entry as consumed by
`MCPClientManager.start` and `AgentLoop._init_mcp_clients`: the dict
fields the code reads.  `Option` models a field's absence;
`config.get(field)` truthiness makes a missing field and an empty
string equivalent. -/
structure MCPConfigEntry where
  enabled : Bool
  type : Option String
  command : Option String
  url : Option String
deriving Repr, DecidableEq

/-- `MCPClient.client_type` (client.py line 29):
`config.get("type", "stdio")` — a missing discriminator defaults to
`"stdio"`. -/
def MCPConfigEntry.client_type (e : MCPConfigEntry) : String :=
  e.type.getD "stdio"

/-- The per-entry validation shared by `AgentLoop._init_mcp_clients`
(loop.py lines 110-123) and `MCPClientManager.start` (client.py lines
283-300): the entry must be enabled, and its (defaulted) type must be
`"stdio"` with a nonempty command, or `"http"`/`"streamable_http"`
with a nonempty url; any other type is skipped with a warning. -/
def clientEligible (e : MCPConfigEntry) : Bool :=
  e.enabled &&
    (if e.client_type == "stdio" then !(e.command.getD "" == "")
     else if (e.client_type == "http") || (e.client_type == "streamable_http")
       then !(e.url.getD "" == "")
     else false)

/-- Whether an `Except` outcome is a success. -/
def exceptOk : Except String Unit → Bool
  | .ok _ => true
  | .error _ => false

/-- `MCPClientManager.start` (client.py lines 281-308): walk the
configured entries in order; skip ineligible ones; attempt to connect
each eligible one (`connect name` is the outcome of
`MCPClient.connect`); a per-client connection failure is absorbed and
that client is simply absent from the active set, siblings still
start.  Returns the active set `self.clients`. -/
def managerStart (connect : String → Except String Unit) :
    List (String × MCPConfigEntry) → List (String × MCPConfigEntry)
  | [] => []
  | (name, config) :: rest =>
    if clientEligible config then
      match connect name with
      | .ok _ => (name, config) :: managerStart connect rest
      | .error _ => managerStart connect rest
    else managerStart connect rest

/-- A remote tool definition as returned by a client's tool listing:
name, description and input schema (the schema is opaque here). -/
structure MCPToolDef where
  name : String
  description : String
  inputSchema : String
deriving Repr, DecidableEq

/-- `MCPClient.list_tools` (client.py lines 230-246) for a connected
client: a listing failure (`listRes name = .error _`) yields an empty
list rather than a raised fault.  `listRes name` is the outcome of
`session.list_tools()` for the client of that name. -/
def client_list_tools (listRes : String → Except String (List MCPToolDef))
    (name : String) : List MCPToolDef :=
  match listRes name with
  | .ok ts => ts
  | .error _ => []

/-- `MCPClientManager.list_all_tools` (client.py lines 328-339): for
every active client, its (failure-absorbed) tool list, keyed by the
client name. -/
def list_all_tools (listRes : String → Except String (List MCPToolDef))
    (clients : List (String × MCPConfigEntry)) :
    List (String × List MCPToolDef) :=
  clients.map (fun c => (c.1, client_list_tools listRes c.1))

/-- `MCPToolAdapter` state (adapter.py lines 14-36): the owning client
name, the unprefixed remote tool name/description/schema extracted
from the tool definition, and the underlying client session (modelled
as an opaque session identifier). -/
structure MCPToolAdapter where
  client_name : String
  tool_name : String
  tool_description : String
  input_schema : String
  client_session : String
deriving Repr, DecidableEq

/-- `MCPToolAdapter.__init__` applied to a tool definition: extracts
name, description and schema (adapter.py lines 27-36). -/
def mkAdapter (client_name : String) (t : MCPToolDef)
    (session : String) : MCPToolAdapter :=
  ⟨client_name, t.name, t.description, t.inputSchema, session⟩

/-- `MCPToolAdapter.name` (adapter.py lines 38-41): the composite
exposed name `mcp_<clientName>_<remoteToolName>`. -/
def MCPToolAdapter.name (a : MCPToolAdapter) : String :=
  "mcp_" ++ a.client_name ++ "_" ++ a.tool_name

/-- One item of a remote result's `content` list (adapter.py lines
77-89): a `{"type": "text"}` block, a `{"type": "resource"}` block, or
any other item (whose Python `str(item)` rendering is carried as an
opaque string). -/
inductive ContentItem where
  | textBlock (text : String)
  | resourceBlock (uri : String)
  | otherBlock (rendered : String)
deriving Repr, DecidableEq

/-- The `content` field of a dict-shaped remote result (adapter.py
lines 73-94): a list of typed items, a plain string, or some other
value (its `str(content)` rendering carried as an opaque string). -/
inductive MCPContent where
  | contentList (items : List ContentItem)
  | contentStr (s : String)
  | contentOther (rendered : String)
deriving Repr, DecidableEq

/-- The shape of a remote tool-call result as discriminated by
`MCPToolAdapter.execute` (adapter.py lines 71-102): a dict with a
`content` field, a dict without one (its `json.dumps(result,
indent=2)` rendering carried as an opaque string), a list (each
item's `str(item)` rendering carried), or any other value (its
`str(result)` rendering carried). -/
inductive MCPResult where
  | dictWithContent (content : MCPContent)
  | dictNoContent (jsonDump : String)
  | listResult (items : List String)
  | otherResult (rendered : String)
deriving Repr, DecidableEq

/-- Rendering of one content item (adapter.py lines 78-89): a text
block contributes its text, a resource block the placeholder
`Resource: <uri>`, anything else its string rendering. -/
def renderContentItem : ContentItem → String
  | .textBlock t => t
  | .resourceBlock uri => "Resource: " ++ uri
  | .otherBlock r => r

/-- The result-normalization of `MCPToolAdapter.execute` (adapter.py
lines 71-102): content lists are rendered item-wise and joined with
newlines, a plain-string content is returned as-is, a dict without a
content field becomes its JSON dump, a list result is joined with
newlines, anything else is its string rendering. -/
def normalizeResult : MCPResult → String
  | .dictWithContent (.contentList items) =>
      String.intercalate "\n" (items.map renderContentItem)
  | .dictWithContent (.contentStr s) => s
  | .dictWithContent (.contentOther r) => r
  | .dictNoContent dump => dump
  | .listResult items => String.intercalate "\n" items
  | .otherResult r => r

/-- `MCPToolAdapter.execute` (adapter.py lines 54-106): call the
underlying client session with the unprefixed tool name, normalize the
result to plain text, and convert any exception raised during the
remote invocation into `Error: <message>` text rather than a raised
fault.  `callTool session toolName args` is the outcome of
`client_session.call_tool(toolName, args)`. -/
def adapterExecute
    (callTool : String → String → String → Except String MCPResult)
    (a : MCPToolAdapter) (args : String) : String :=
  match callTool a.client_session a.tool_name args with
  | .ok r => normalizeResult r
  | .error e => "Error: " ++ e

/-! ### Unfolding lemmas for the call/execute cycle -/

theorem runLoop_stop (provider : Nat → Except String ProviderResponse)
    (execTool : String → String → String) (msgs : List ChatMessage)
    (iteration maxIterations : Nat) (h : ¬ iteration < maxIterations) :
    runLoop provider execTool msgs iteration maxIterations =
      (.ok (none, msgs), 0) := by
  rw [runLoop]
  simp [h]

theorem runLoop_error (provider : Nat → Except String ProviderResponse)
    (execTool : String → String → String) (msgs : List ChatMessage)
    (iteration maxIterations : Nat) (e : String)
    (h : iteration < maxIterations) (hp : provider iteration = .error e) :
    runLoop provider execTool msgs iteration maxIterations = (.error e, 1) := by
  rw [runLoop]
  simp [h, hp]

theorem runLoop_done (provider : Nat → Except String ProviderResponse)
    (execTool : String → String → String) (msgs : List ChatMessage)
    (iteration maxIterations : Nat) (r : ProviderResponse)
    (h : iteration < maxIterations) (hp : provider iteration = .ok r)
    (hr : r.has_tool_calls = false) :
    runLoop provider execTool msgs iteration maxIterations =
      (.ok (some r.content, msgs), 1) := by
  rw [runLoop]
  simp [h, hp, hr]

theorem runLoop_step (provider : Nat → Except String ProviderResponse)
    (execTool : String → String → String) (msgs : List ChatMessage)
    (iteration maxIterations : Nat) (r : ProviderResponse)
    (h : iteration < maxIterations) (hp : provider iteration = .ok r)
    (hr : r.has_tool_calls = true) :
    runLoop provider execTool msgs iteration maxIterations =
      ((runLoop provider execTool
          (execToolCalls execTool
            (add_assistant_message msgs r.content r.tool_calls)
            r.tool_calls)
          (iteration + 1) maxIterations).1,
       (runLoop provider execTool
          (execToolCalls execTool
            (add_assistant_message msgs r.content r.tool_calls)
            r.tool_calls)
          (iteration + 1) maxIterations).2 + 1) := by
  rw [runLoop]
  simp [h, hp, hr]

theorem runLoop_count_le (provider : Nat → Except String ProviderResponse)
    (execTool : String → String → String) :
    ∀ (fuel : Nat) (msgs : List ChatMessage) (iteration maxIterations : Nat),
      maxIterations - iteration ≤ fuel →
      (runLoop provider execTool msgs iteration maxIterations).2 ≤
        maxIterations - iteration := by
  intro fuel
  induction fuel with
  | zero =>
    intro msgs iteration maxIterations hfuel
    have h : ¬ iteration < maxIterations := by omega
    rw [runLoop_stop provider execTool msgs iteration maxIterations h]
    simp
  | succ n ih =>
    intro msgs iteration maxIterations hfuel
    by_cases h : iteration < maxIterations
    · cases hp : provider iteration with
      | error e =>
        rw [runLoop_error provider execTool msgs iteration maxIterations e h hp]
        omega
      | ok r =>
        by_cases hr : r.has_tool_calls = true
        · rw [runLoop_step provider execTool msgs iteration maxIterations r h hp hr]
          have hrec := ih
            (execToolCalls execTool
              (add_assistant_message msgs r.content r.tool_calls) r.tool_calls)
            (iteration + 1) maxIterations (by omega)
          simp only [Prod.snd]
          omega
        · rw [runLoop_done provider execTool msgs iteration maxIterations r h hp
            (by simpa using hr)]
          omega
    · rw [runLoop_stop provider execTool msgs iteration maxIterations h]
      simp

/-- Claim C1: for every processed inbound message, the number of calls made
to the model provider's chat operation does not exceed the configured
maximum iteration count `max_iterations`. -/
theorem provider_calls_within_budget
    (provider : Nat → Except String ProviderResponse)
    (execTool : String → String → String)
    (msgs : List ChatMessage) (maxIterations : Nat) :
    (runLoop provider execTool msgs 0 maxIterations).2 ≤ maxIterations := by
  have h := runLoop_count_le provider execTool maxIterations msgs 0 maxIterations
    (by omega)
  simpa using h

theorem execToolCalls_eq_append (execTool : String → String → String)
    (tcs : List ToolCall) :
    ∀ msgs : List ChatMessage,
      execToolCalls execTool msgs tcs =
        msgs ++ tcs.map (fun tc =>
          ChatMessage.tool tc.id tc.name (execTool tc.name tc.arguments)) := by
  induction tcs with
  | nil => intro msgs; simp [execToolCalls]
  | cons tc rest ih =>
    intro msgs
    simp [execToolCalls, add_tool_result, ih]

/-- Claim C2: a model response carrying N tool-invocation requests leads to
exactly N tool-invocation results appended to the message sequence
before the next provider call — one result per request, tagged with
that request's invocation id, produced strictly sequentially in the
exact order the provider returned the requests (each result appended
before the subsequent request executes). -/
theorem tool_results_appended_in_order
    (provider : Nat → Except String ProviderResponse)
    (execTool : String → String → String)
    (msgs : List ChatMessage) (tcs : List ToolCall)
    (iteration maxIterations : Nat) (r : ProviderResponse)
    (h : iteration < maxIterations) (hp : provider iteration = Except.ok r)
    (hr : r.has_tool_calls = true) :
    execToolCalls execTool msgs tcs =
      msgs ++ tcs.map (fun tc =>
        ChatMessage.tool tc.id tc.name (execTool tc.name tc.arguments))
    ∧ runLoop provider execTool msgs iteration maxIterations =
        ((runLoop provider execTool
            (add_assistant_message msgs r.content r.tool_calls ++
              r.tool_calls.map (fun tc =>
                ChatMessage.tool tc.id tc.name (execTool tc.name tc.arguments)))
            (iteration + 1) maxIterations).1,
         (runLoop provider execTool
            (add_assistant_message msgs r.content r.tool_calls ++
              r.tool_calls.map (fun tc =>
                ChatMessage.tool tc.id tc.name (execTool tc.name tc.arguments)))
            (iteration + 1) maxIterations).2 + 1) := by
  refine ⟨execToolCalls_eq_append execTool tcs msgs, ?_⟩
  rw [runLoop_step provider execTool msgs iteration maxIterations r h hp hr]
  rw [execToolCalls_eq_append]

/-- Witness for C2 at a concrete input: one response carrying two
requests, executed in order with id-tagged results. -/
theorem tool_results_appended_in_order_witness :
    execToolCalls (fun n a => n ++ "/" ++ a) [ChatMessage.user "q"]
        [⟨"id1", "t1", "a1"⟩, ⟨"id2", "t2", "a2"⟩] =
      [ChatMessage.user "q"] ++
        [ToolCall.mk "id1" "t1" "a1", ToolCall.mk "id2" "t2" "a2"].map
          (fun tc => ChatMessage.tool tc.id tc.name
            ((fun n a => n ++ "/" ++ a) tc.name tc.arguments)) :=
  (tool_results_appended_in_order
    (fun _ => Except.ok ⟨"c", [⟨"id1", "t1", "a1"⟩]⟩)
    (fun n a => n ++ "/" ++ a)
    [ChatMessage.user "q"]
    [⟨"id1", "t1", "a1"⟩, ⟨"id2", "t2", "a2"⟩]
    0 1 ⟨"c", [⟨"id1", "t1", "a1"⟩]⟩
    (by decide) rfl (by decide)).1

theorem runLoop_all_tool_calls
    (provider : Nat → Except String ProviderResponse)
    (execTool : String → String → String) (maxIterations : Nat)
    (hall : ∀ i, i < maxIterations →
      ∃ r, provider i = Except.ok r ∧ r.has_tool_calls = true) :
    ∀ (fuel : Nat) (msgs : List ChatMessage) (iteration : Nat),
      maxIterations - iteration ≤ fuel →
      ∃ m, (runLoop provider execTool msgs iteration maxIterations).1 =
        Except.ok (none, m) := by
  intro fuel
  induction fuel with
  | zero =>
    intro msgs iteration hfuel
    have h : ¬ iteration < maxIterations := by omega
    rw [runLoop_stop provider execTool msgs iteration maxIterations h]
    exact ⟨msgs, rfl⟩
  | succ n ih =>
    intro msgs iteration hfuel
    by_cases h : iteration < maxIterations
    · obtain ⟨r, hp, hr⟩ := hall iteration h
      rw [runLoop_step provider execTool msgs iteration maxIterations r h hp hr]
      exact ih _ (iteration + 1) (by omega)
    · rw [runLoop_stop provider execTool msgs iteration maxIterations h]
      exact ⟨msgs, rfl⟩

/-- Claim C3: if every one of the `max_iterations` provider responses for a
message carries tool-invocation requests, the Outbound Envelope's
final content is the fixed fallback text, not any provider-returned
content. -/
theorem exhausted_budget_yields_fallback
    (provider : Nat → Except String ProviderResponse)
    (execTool : String → String → String)
    (build : SessionHistory → String → List ChatMessage)
    (maxIterations : Nat) (session : SessionHistory) (msg : InboundMessage)
    (hall : ∀ i, i < maxIterations →
      ∃ r, provider i = Except.ok r ∧ r.has_tool_calls = true) :
    ∃ s2, process_message provider execTool build maxIterations session msg =
      (Except.ok ⟨msg.channel, msg.chat_id, fallbackText⟩, s2) := by
  obtain ⟨m, hm⟩ := runLoop_all_tool_calls provider execTool maxIterations hall
    maxIterations (build session msg.content) 0 (by omega)
  refine ⟨add_message (add_message session "user" msg.content)
    "assistant" fallbackText, ?_⟩
  simp [process_message, hm]

/-- Witness for C3 at a concrete input: budget of one iteration, the
single response carries a tool call, the reply is the fallback text. -/
theorem exhausted_budget_yields_fallback_witness :
    ∃ s2, process_message (fun _ => Except.ok ⟨"c", [⟨"i", "t", "a"⟩]⟩)
        (fun _ _ => "res") (fun _ _ => []) 1 [] ⟨"cli", "u", "d", "hi"⟩ =
      (Except.ok ⟨"cli", "d", fallbackText⟩, s2) :=
  exhausted_budget_yields_fallback
    (fun _ => Except.ok ⟨"c", [⟨"i", "t", "a"⟩]⟩)
    (fun _ _ => "res") (fun _ _ => []) 1 [] ⟨"cli", "u", "d", "hi"⟩
    (fun _ _ => ⟨⟨"c", [⟨"i", "t", "a"⟩]⟩, rfl, by decide⟩)

/-- Claim C4: per processed Inbound Envelope the resolved session grows by
exactly the two turns (user content, final assistant content), once,
after the call/execute loop has terminated; when processing fails
before the terminal state (a provider fault during a chat call) the
session is unchanged. -/
theorem session_appends_exactly_two_turns
    (provider : Nat → Except String ProviderResponse)
    (execTool : String → String → String)
    (build : SessionHistory → String → List ChatMessage)
    (maxIterations : Nat) (session : SessionHistory) (msg : InboundMessage) :
    (process_message provider execTool build maxIterations session msg).2 =
      match (process_message provider execTool build maxIterations session msg).1
      with
      | .error _ => session
      | .ok out =>
        add_message (add_message session "user" msg.content)
          "assistant" out.content := by
  unfold process_message
  cases hm : (runLoop provider execTool (build session msg.content) 0
      maxIterations).1 with
  | error e => simp [hm]
  | ok p =>
    obtain ⟨fo, m⟩ := p
    simp [hm]

/-- Claim C5: a system-origin Inbound Envelope's conversation key is parsed
on the first separator occurrence — the Outbound Envelope is addressed
to the parsed origin channel and key; `"alpha:42"` parses to channel
`"alpha"` and key `"42"` (and `"a:b:c"` to `"a"`/`"b:c"`, splitting on
the first occurrence only); a key with no separator falls back to the
default channel `"cli"` with the raw key as the destination key. -/
theorem system_origin_routing
    (provider : Nat → Except String ProviderResponse)
    (execTool : String → String → String)
    (build : SessionHistory → String → List ChatMessage)
    (maxIterations : Nat) (store : SessionStore) (msg : InboundMessage)
    (hch : msg.channel = "system") :
    (∀ (out : OutboundMessage) (store' : SessionStore),
       process_message_full provider execTool build maxIterations store msg =
         (Except.ok out, store') →
       out.channel = (parse_origin msg.chat_id).1 ∧
       out.chat_id = (parse_origin msg.chat_id).2)
    ∧ parse_origin "alpha:42" = ("alpha", "42")
    ∧ parse_origin "a:b:c" = ("a", "b:c")
    ∧ ∀ k : String, splitFirstAux ':' k.data = none →
        parse_origin k = ("cli", k) := by
  refine ⟨?_, by decide, by decide, ?_⟩
  · intro out store' hok
    simp only [process_message_full, if_pos hch, process_system_message] at hok
    split at hok
    · simp at hok
    · simp only [Prod.mk.injEq, Except.ok.injEq] at hok
      obtain ⟨hout, -⟩ := hok
      rw [← hout]
      exact ⟨rfl, rfl⟩
  · intro k hk
    simp [parse_origin, hk]

/-- Witness for C5 at a concrete input: a system message with
composite key `"alpha:42"`. -/
theorem system_origin_routing_witness :
    parse_origin "alpha:42" = ("alpha", "42") :=
  (system_origin_routing (fun _ => Except.ok ⟨"ok", []⟩) (fun _ _ => "r")
    (fun _ _ => []) 1 (fun _ => []) ⟨"system", "subagent", "alpha:42", "done"⟩
    rfl).2.1

theorem managerStart_eq_filter (connect : String → Except String Unit) :
    ∀ cfg : List (String × MCPConfigEntry),
      managerStart connect cfg =
        cfg.filter (fun p => clientEligible p.2 && exceptOk (connect p.1)) := by
  intro cfg
  induction cfg with
  | nil => rfl
  | cons p rest ih =>
    obtain ⟨name, config⟩ := p
    by_cases he : clientEligible config
    · cases hc : connect name with
      | ok u => simp [managerStart, he, hc, exceptOk, List.filter_cons, ih]
      | error e => simp [managerStart, he, hc, exceptOk, List.filter_cons, ih]
    · simp [managerStart, he, List.filter_cons, ih]

/-- Claim C6: when one configured client fails to connect during the
manager's start while a sibling succeeds, the failed client is absent
from the active set and the sibling is present (start absorbs the
failure instead of raising); a subsequent tool listing covers exactly
the active clients, and a listing failure for one client yields an
empty list for that client only. -/
theorem mcp_client_failure_isolated
    (connect : String → Except String Unit)
    (listRes : String → Except String (List MCPToolDef))
    (cfg : List (String × MCPConfigEntry))
    (f w : String) (ef ew : MCPConfigEntry)
    (hf : (f, ef) ∈ cfg) (hef : clientEligible ef = true)
    (hcf : exceptOk (connect f) = false)
    (hw : (w, ew) ∈ cfg) (hew : clientEligible ew = true)
    (hcw : exceptOk (connect w) = true) :
    (∀ e : MCPConfigEntry, (f, e) ∉ managerStart connect cfg)
    ∧ (w, ew) ∈ managerStart connect cfg
    ∧ list_all_tools listRes (managerStart connect cfg) =
        (managerStart connect cfg).map
          (fun c => (c.1, client_list_tools listRes c.1))
    ∧ (list_all_tools listRes (managerStart connect cfg)).map Prod.fst =
        (managerStart connect cfg).map Prod.fst
    ∧ ∀ n err : String, listRes n = Except.error err →
        client_list_tools listRes n = [] := by
  refine ⟨?_, ?_, rfl, ?_, ?_⟩
  · intro e hmem
    rw [managerStart_eq_filter] at hmem
    rw [List.mem_filter] at hmem
    obtain ⟨-, hcond⟩ := hmem
    simp [hcf] at hcond
  · rw [managerStart_eq_filter]
    exact List.mem_filter.mpr ⟨hw, by simp [hew, hcw]⟩
  · simp [list_all_tools, List.map_map, Function.comp]
  · intro n err h
    simp [client_list_tools, h]

/-- Witness for C6 at a concrete input: clients `"fs"` and `"web"`,
`"fs"` fails to connect, `"web"` succeeds and is in the active set. -/
theorem mcp_client_failure_isolated_witness :
    ("web", (⟨true, some "stdio", some "npx", none⟩ : MCPConfigEntry)) ∈
      managerStart
        (fun n => if n = "fs" then Except.error "unreachable" else Except.ok ())
        [("fs", ⟨true, some "stdio", some "npx", none⟩),
         ("web", ⟨true, some "stdio", some "npx", none⟩)] :=
  (mcp_client_failure_isolated
    (fun n => if n = "fs" then Except.error "unreachable" else Except.ok ())
    (fun _ => Except.ok [])
    [("fs", ⟨true, some "stdio", some "npx", none⟩),
     ("web", ⟨true, some "stdio", some "npx", none⟩)]
    "fs" "web" ⟨true, some "stdio", some "npx", none⟩
    ⟨true, some "stdio", some "npx", none⟩
    (by decide) (by decide) (by decide)
    (by decide) (by decide) (by decide)).2.1

/-- Claim C7 counterexample: a client configuration entry with no
discriminator field at all is not treated as a configuration error —
`client_type` silently defaults to `"stdio"`, the entry passes
validation on its command field, and the manager's start accepts it
into the active set. -/
theorem missing_discriminator_defaults_cex :
    MCPConfigEntry.client_type ⟨true, none, some "npx", none⟩ = "stdio"
    ∧ clientEligible ⟨true, none, some "npx", none⟩ = true
    ∧ managerStart (fun _ => Except.ok ())
        [("srv", ⟨true, none, some "npx", none⟩)] =
      [("srv", ⟨true, none, some "npx", none⟩)] :=
  ⟨rfl, by decide, by decide⟩

/-- Claim C7, amended: the transport variant is selected by the
discriminator field when it is present, and an entry whose
discriminator is present but unrecognized is treated as a
configuration error — it fails validation and is skipped by the
manager's start; an entry with a missing discriminator, however, is
silently defaulted to the stdio variant. -/
theorem transport_discriminator_selection (e : MCPConfigEntry) (t : String)
    (ht : e.type = some t) (h1 : t ≠ "stdio") (h2 : t ≠ "http")
    (h3 : t ≠ "streamable_http") :
    MCPConfigEntry.client_type e = t
    ∧ clientEligible e = false
    ∧ (∀ (connect : String → Except String Unit) (n : String)
         (rest : List (String × MCPConfigEntry)),
         managerStart connect ((n, e) :: rest) = managerStart connect rest)
    ∧ ∀ e2 : MCPConfigEntry, e2.type = none →
        MCPConfigEntry.client_type e2 = "stdio" := by
  have hct : MCPConfigEntry.client_type e = t := by
    simp [MCPConfigEntry.client_type, ht]
  have hel : clientEligible e = false := by
    simp [clientEligible, hct, h1, h2, h3]
  refine ⟨hct, hel, ?_, ?_⟩
  · intro connect n rest
    simp [managerStart, hel]
  · intro e2 h
    simp [MCPConfigEntry.client_type, h]

/-- Witness for the amended C7 at a concrete input: an enabled entry
with the unrecognized discriminator `"websocket"` fails validation. -/
theorem transport_discriminator_selection_witness :
    clientEligible ⟨true, some "websocket", some "npx", some "u"⟩ = false :=
  (transport_discriminator_selection
    ⟨true, some "websocket", some "npx", some "u"⟩ "websocket"
    rfl (by decide) (by decide) (by decide)).2.1

/-- Claim C8: an adapted tool's exposed name is exactly the composite
`mcp_<clientName>_<remoteToolName>`; two clients `"fs"` and `"web"`
each exposing a remote tool named `"search"` register under the
distinct names `"mcp_fs_search"` and `"mcp_web_search"`; and executing
an adapter dispatches to its own underlying client session with the
unprefixed remote tool name. -/
theorem adapter_composite_name (c s : String) (t : MCPToolDef)
    (callTool : String → String → String → Except String MCPResult)
    (args d1 i1 s1 d2 i2 s2 : String) :
    (mkAdapter c t s).name = "mcp_" ++ c ++ "_" ++ t.name
    ∧ (mkAdapter "fs" ⟨"search", d1, i1⟩ s1).name = "mcp_fs_search"
    ∧ (mkAdapter "web" ⟨"search", d2, i2⟩ s2).name = "mcp_web_search"
    ∧ ("mcp_fs_search" : String) ≠ "mcp_web_search"
    ∧ adapterExecute callTool (mkAdapter c t s) args =
        (match callTool s t.name args with
         | Except.ok r => normalizeResult r
         | Except.error e => "Error: " ++ e) := by
  refine ⟨rfl, ?_, ?_, by decide, rfl⟩
  · simp [mkAdapter, MCPToolAdapter.name]
  · simp [mkAdapter, MCPToolAdapter.name]

/-- Claim C9: an adapted tool's execute always returns plain text and never
raises — a content list is rendered block-wise (text blocks verbatim,
resource blocks as a `Resource: <uri>` placeholder, other blocks as
their string rendering) and joined with newlines, a plain-string
content is returned as-is, a structured result with no content field
becomes its formatted dump, and an exception during the remote
invocation becomes `Error: <message>` text. -/
theorem adapter_execute_normalizes
    (callTool : String → String → String → Except String MCPResult)
    (a : MCPToolAdapter) (args : String) :
    (∀ e : String,
       callTool a.client_session a.tool_name args = Except.error e →
       adapterExecute callTool a args = "Error: " ++ e)
    ∧ (∀ s : String,
       callTool a.client_session a.tool_name args =
         Except.ok (.dictWithContent (.contentStr s)) →
       adapterExecute callTool a args = s)
    ∧ (∀ items : List ContentItem,
       callTool a.client_session a.tool_name args =
         Except.ok (.dictWithContent (.contentList items)) →
       adapterExecute callTool a args =
         String.intercalate "\n" (items.map renderContentItem))
    ∧ (∀ dump : String,
       callTool a.client_session a.tool_name args =
         Except.ok (.dictNoContent dump) →
       adapterExecute callTool a args = dump)
    ∧ (∀ r : MCPResult,
       callTool a.client_session a.tool_name args = Except.ok r →
       adapterExecute callTool a args = normalizeResult r)
    ∧ renderContentItem (.textBlock "T") = "T"
    ∧ renderContentItem (.resourceBlock "file:///x") =
        "Resource: " ++ "file:///x" := by
  refine ⟨?_, ?_, ?_, ?_, ?_, rfl, rfl⟩
  · intro e h; simp [adapterExecute, h]
  · intro s h; simp [adapterExecute, h, normalizeResult]
  · intro items h; simp [adapterExecute, h, normalizeResult]
  · intro dump h; simp [adapterExecute, h, normalizeResult]
  · intro r h; simp [adapterExecute, h]

/-- Witness for C9 at a concrete input: a failing remote invocation is
converted to error text. -/
theorem adapter_execute_normalizes_witness :
    adapterExecute (fun _ _ _ => Except.error "boom")
      ⟨"fs", "search", "", "", "sess"⟩ "a" = "Error: " ++ "boom" :=
  (adapter_execute_normalizes (fun _ _ _ => Except.error "boom")
    ⟨"fs", "search", "", "", "sess"⟩ "a").1 "boom" rfl

/-- Claim C10: the direct single-shot path constructs the inbound message
with channel `"cli"`, sender `"user"` and chat id `"direct"`, whose
session key is `"cli:direct"`; the `session_key` argument has no
effect on behaviour, and no session other than `"cli:direct"` is ever
written. -/
theorem process_direct_ignores_session_key
    (provider : Nat → Except String ProviderResponse)
    (execTool : String → String → String)
    (build : SessionHistory → String → List ChatMessage)
    (maxIterations : Nat) (store : SessionStore)
    (content sk sk' : String) :
    process_direct provider execTool build maxIterations store content sk =
      process_direct provider execTool build maxIterations store content sk'
    ∧ directMsg content = ⟨"cli", "user", "direct", content⟩
    ∧ (directMsg content).session_key = "cli:direct"
    ∧ ∀ k : String, k ≠ "cli:direct" →
        (process_direct provider execTool build maxIterations
          store content sk).2 k = store k := by
  refine ⟨rfl, rfl, rfl, ?_⟩
  intro k hk
  unfold process_direct process_message_full
  rw [if_neg (show ¬ (directMsg content).channel = "system" from by
    simp [directMsg])]
  cases hq : (process_message provider execTool build maxIterations
      (get_or_create store (directMsg content).session_key)
      (directMsg content)).1 with
  | error e =>
    simp only [hq]
  | ok out =>
    simp only [hq]
    simp [saveSession, directMsg, InboundMessage.session_key, hk]

/-- Witness for C10 at a concrete input: a foreign session key is
ignored and an unrelated session is untouched. -/
theorem process_direct_ignores_session_key_witness :
    (process_direct (fun _ => Except.ok ⟨"4", []⟩) (fun _ _ => "r")
      (fun _ _ => []) 1 (fun _ => []) "2+2?" "other:key").2 "x:y" =
      (fun _ => ([] : SessionHistory)) "x:y" :=
  (process_direct_ignores_session_key (fun _ => Except.ok ⟨"4", []⟩)
    (fun _ _ => "r") (fun _ _ => []) 1 (fun _ => []) "2+2?" "other:key"
    "other:key").2.2.2 "x:y" (by decide)

end Nanobot
